import Mathlib

/-!
Verification of the customer loyalty-point data layer
(`src/services/supabase.ts`, Supabase-backed version: `calculateTier`,
`SupabaseDB.getCustomers/addCustomer/updateCustomer/updatePoints/deleteCustomer/searchCustomers`,
plus the older `MockDB` variant).  Machine integers of the source are
modelled as `Int`; the data store is modelled as a list of rows, and
store failures as an explicit `Except` response parameter.
-/

/-- Loyalty tier labels: the codomain of `calculateTier`
(`'standard' | 'gold' | 'platinum'`). -/
inductive Tier where
  | standard
  | gold
  | platinum
deriving DecidableEq, Repr

/-- `TIER_THRESHOLDS.GOLD` from the source. -/
def TIER_THRESHOLDS_GOLD : Int := 1000

/-- `TIER_THRESHOLDS.PLATINUM` from the source. -/
def TIER_THRESHOLDS_PLATINUM : Int := 5000

/-- `calculateTier` from the source:
`points >= PLATINUM ? 'platinum' : points >= GOLD ? 'gold' : 'standard'`.
The `console.log` call has no semantic effect and is omitted. -/
def calculateTier (points : Int) : Tier :=
  if points ≥ TIER_THRESHOLDS_PLATINUM then Tier.platinum
  else if points ≥ TIER_THRESHOLDS_GOLD then Tier.gold
  else Tier.standard

/-- Rank of a tier under the ordering standard < gold < platinum. -/
def tierRank : Tier → Nat
  | Tier.standard => 0
  | Tier.gold => 1
  | Tier.platinum => 2

/-- A customer row as the Supabase-backed data layer reads and writes it
(`types.ts` `Customer`, with `tier` always written by this layer).
`id` and `created_at` are store-assigned; `created_at` is modelled as an
ordinal `Nat`. -/
structure Customer where
  id : String
  name : String
  phone : String
  points : Int
  points_redeemed : Int
  tier : Tier
  created_at : Nat
deriving DecidableEq, Repr

/-- JS `x || 0` applied to an integer-valued expression: the identity,
except that it (re)produces `0` on the falsy value `0`. -/
def orZero (x : Int) : Int := if x = 0 then 0 else x

/-- JS `String.prototype.trim`: drops leading and trailing whitespace.
Rendered over the character list so that concrete calls evaluate by
kernel reduction. -/
def jsTrim (s : String) : String :=
  ⟨((s.data.dropWhile Char.isWhitespace).reverse.dropWhile Char.isWhitespace).reverse⟩

/-- Input to `addCustomer`: `Omit<Customer, 'id' | 'created_at' | 'points_redeemed' | 'tier'>`. -/
structure NewCustomerInput where
  name : String
  phone : String
  points : Int

/-- The row `SupabaseDB.addCustomer` builds and inserts:
`points = customer.points || 0`, trimmed `name`/`phone`,
`points_redeemed = 0`, `tier = calculateTier points`.  The store-assigned
`id` and `created_at` are modelled by the fresh ordinal `nextId`. -/
def mkNewCustomer (nextId : Nat) (input : NewCustomerInput) : Customer :=
  let points := orZero input.points
  { id := toString nextId
    name := jsTrim input.name
    phone := jsTrim input.phone
    points := points
    points_redeemed := 0
    tier := calculateTier points
    created_at := nextId }

/-- `SupabaseDB.addCustomer` on a healthy store: inserts the built row and
returns it (the `.select().single()` echo of the inserted row). -/
def addCustomer (s : List Customer) (nextId : Nat) (input : NewCustomerInput) :
    Customer × List Customer :=
  let c := mkNewCustomer nextId input
  (c, s ++ [c])

/-- `Partial<Customer>` as passed to `SupabaseDB.updateCustomer`
(the store-assigned fields are not updatable through this path). -/
structure CustomerUpdate where
  name : Option String := none
  phone : Option String := none
  points : Option Int := none
  points_redeemed : Option Int := none
  tier : Option Tier := none

/-- The store applying an `update(updates)` payload to one row: each field
present in the partial update overwrites the column, the rest keep their
values. -/
def applyUpdate (c : Customer) (u : CustomerUpdate) : Customer :=
  { c with
    name := u.name.getD c.name
    phone := u.phone.getD c.phone
    points := u.points.getD c.points
    points_redeemed := u.points_redeemed.getD c.points_redeemed
    tier := u.tier.getD c.tier }

/-- `SupabaseDB.updateCustomer` on a healthy store:
`update(updates).eq('id', id).select().single()`.  When no row matches,
`.single()` errors and the catch block returns `null` (store untouched);
otherwise the payload is written verbatim and the updated row returned.
No tier recomputation happens on this path. -/
def updateCustomer (s : List Customer) (id : String) (u : CustomerUpdate) :
    Option Customer × List Customer :=
  match s.find? (fun c => c.id == id) with
  | none => (none, s)
  | some c =>
      let c2 := applyUpdate c u
      (some c2, s.map (fun x => if x.id == id then applyUpdate x u else x))

/-- The three-column payload `SupabaseDB.updatePoints` writes:
`newPoints = points + amount`;
`newPointsRedeemed = amount < 0 ? (points_redeemed || 0) + Math.abs(amount) : points_redeemed || 0`;
`newTier = calculateTier newPoints`. -/
structure PointsUpdate where
  points : Int
  points_redeemed : Int
  tier : Tier
deriving DecidableEq, Repr

/-- Computes the `updatePoints` payload from the fetched row. -/
def pointsUpdateOf (c : Customer) (amount : Int) : PointsUpdate :=
  { points := c.points + amount
    points_redeemed :=
      if amount < 0 then orZero c.points_redeemed + |amount|
      else orZero c.points_redeemed
    tier := calculateTier (c.points + amount) }

/-- The store applying the `updatePoints` payload to a row. -/
def applyPointsUpdate (c : Customer) (u : PointsUpdate) : Customer :=
  { c with points := u.points, points_redeemed := u.points_redeemed, tier := u.tier }

/-- `SupabaseDB.updatePoints` on a healthy store: fetch the row by id
(`null` and no write when absent), compute the payload, write it to the
matching row, and return the updated row. -/
def updatePoints (s : List Customer) (id : String) (amount : Int) :
    Option Customer × List Customer :=
  match s.find? (fun c => c.id == id) with
  | none => (none, s)
  | some c =>
      let u := pointsUpdateOf c amount
      (some (applyPointsUpdate c u), s.map (fun x => if x.id == id then applyPointsUpdate x u else x))

/-- A customer row as `MockDB` (`src/services/supabase.ts`) holds it:
`tier` is the optional `types.ts` field, and `MockDB` never writes it. -/
structure MockCustomer where
  id : String
  name : String
  phone : String
  points : Int
  points_redeemed : Int
  tier : Option Tier
  created_at : Nat
deriving DecidableEq, Repr

/-- The in-place mutation `MockDB.updatePoints` performs on the found row:
`points += amount`, and when `amount < 0`,
`points_redeemed += Math.abs(amount)`.  `tier` is not touched. -/
def mockUpdateRow (c : MockCustomer) (amount : Int) : MockCustomer :=
  { c with
    points := c.points + amount
    points_redeemed :=
      if amount < 0 then c.points_redeemed + |amount| else c.points_redeemed }

/-- `MockDB.updatePoints`: `findIndex(c => c.id === id)`, returning `null`
when absent, else mutating the first matching row in place and returning
it.  Rendered as structural recursion over the row list. -/
def MockDB_updatePoints : List MockCustomer → String → Int → Option MockCustomer × List MockCustomer
  | [], _, _ => (none, [])
  | c :: rest, id, amount =>
      if c.id == id then
        let c2 := mockUpdateRow c amount
        (some c2, c2 :: rest)
      else
        let r := MockDB_updatePoints rest id amount
        (r.1, c :: r.2)

/-- An error object returned by a failing store call. -/
structure StoreErr where
  message : String

/-- `SupabaseDB.getCustomers` as a function of the response of its one
store call (`select('*').order('created_at', desc)`): on a store error
the method throws, the catch block returns `[]`; otherwise it returns
`data || []`. -/
def getCustomersRun (resp : Except StoreErr (Option (List Customer))) : List Customer :=
  match resp with
  | Except.error _ => []
  | Except.ok data => data.getD []

/-- `SupabaseDB.searchCustomers` as a function of the response of its one
store call (the `ilike` name/phone filter is part of the request): same
error shape as `getCustomers` — errors are swallowed into `[]`. -/
def searchCustomersRun (resp : Except StoreErr (Option (List Customer))) : List Customer :=
  match resp with
  | Except.error _ => []
  | Except.ok data => data.getD []

/-- `SupabaseDB.addCustomer` handling of the insert response (the inserted
payload itself is `mkNewCustomer`): a store error is wrapped in
`Error('Database error: ...')` and rethrown by the catch block; a null
row raises `'No data returned from database'`; otherwise the row is
returned. -/
def addCustomerRun (insertResp : Except StoreErr (Option Customer)) : Except String Customer :=
  match insertResp with
  | Except.error e => Except.error ("Database error: " ++ e.message)
  | Except.ok none => Except.error "No data returned from database"
  | Except.ok (some d) => Except.ok d

/-- `SupabaseDB.updateCustomer` handling of the update response: a store
error is thrown, caught, and turned into `null`; otherwise the updated
row is returned. -/
def updateCustomerRun (resp : Except StoreErr Customer) : Option Customer :=
  match resp with
  | Except.error _ => none
  | Except.ok d => some d

/-- `SupabaseDB.updatePoints` as a function of the responses of its two
store calls, also recording the update payloads actually issued to the
store: a failed or empty fetch returns `null` before any update is
issued; a failed update is thrown, caught, and turned into `null`. -/
def updatePointsRun (fetch : Except StoreErr (Option Customer)) (amount : Int)
    (updResp : Except StoreErr Customer) : Option Customer × List PointsUpdate :=
  match fetch with
  | Except.error _ => (none, [])
  | Except.ok none => (none, [])
  | Except.ok (some c) =>
      let u := pointsUpdateOf c amount
      match updResp with
      | Except.error _ => (none, [u])
      | Except.ok d => (some d, [u])

/-- `SupabaseDB.deleteCustomer` handling of the delete response: a store
error is thrown, caught, and turned into `false`; otherwise `true`. -/
def deleteCustomerRun (resp : Except StoreErr Unit) : Bool :=
  match resp with
  | Except.error _ => false
  | Except.ok _ => true

/-- Audit action kinds from the `audit_logs` schema in the repo's audit
implementation summary; `tier_changed` is declared but never emitted. -/
inductive ActionType where
  | customer_created
  | customer_updated
  | customer_deleted
  | points_added
  | points_redeemed
  | tier_changed
deriving DecidableEq, Repr

/-- Modelled from the spec: an audit record as the audited Ledger Service
writes it (the AuditLogger-integrated data layer is not present under
src/).  The store-assigned `id`/`created_at` and the admin/old-new-values
context columns are omitted; `points_change` is present only on
`points_added`/`points_redeemed` entries. -/
structure AuditEntry where
  action_type : ActionType
  customer_id : String
  customer_name : String
  points_change : Option Int
deriving DecidableEq, Repr

/-- Modelled from the spec: the error taxonomy surfaced to callers of the
audited Ledger Service. -/
inductive LedgerError where
  | DuplicatePhone
  | NotFound
  | StoreUnavailable
deriving DecidableEq, Repr

/-- Modelled from the spec: the data store as seen by the audited Ledger
Service — customer rows plus the append-only audit log; `nextId` models
store-assigned identifiers. -/
structure LedgerState where
  customers : List Customer
  audits : List AuditEntry
  nextId : Nat
deriving DecidableEq, Repr

/-- Modelled from the spec: `PhoneExists(phone, excludeId?)` — true if any
other customer already has this exact trimmed phone value. -/
def phoneExists (s : LedgerState) (phone : String) (excludeId : Option String) : Bool :=
  s.customers.any (fun c =>
    c.phone == jsTrim phone &&
    (match excludeId with
     | some e => !(c.id == e)
     | none => true))

/-- Modelled from the spec: the audited `Create(name, phone, initialPoints)`
of the Ledger Service, whose implementation is not under src/ (only its
documentation and UI callers are).  Trims `name`/`phone`; fails with
`DuplicatePhone` when `PhoneExists` holds, leaving the store untouched;
otherwise computes `tier = TierOf(initialPoints)`, sets
`points_redeemed = 0`, persists the row, emits one `customer_created`
audit entry, and when `initialPoints > 0` additionally emits one
`points_added` entry with `points_change = initialPoints`. -/
def ledgerCreate (s : LedgerState) (name phone : String) (initialPoints : Int) :
    Except LedgerError Customer × LedgerState :=
  if phoneExists s phone none then
    (Except.error LedgerError.DuplicatePhone, s)
  else
    let c : Customer :=
      { id := toString s.nextId
        name := jsTrim name
        phone := jsTrim phone
        points := initialPoints
        points_redeemed := 0
        tier := calculateTier initialPoints
        created_at := s.nextId }
    let created : AuditEntry := ⟨ActionType.customer_created, c.id, c.name, none⟩
    let audits :=
      if initialPoints > 0 then
        s.audits ++ [created, ⟨ActionType.points_added, c.id, c.name, some initialPoints⟩]
      else
        s.audits ++ [created]
    (Except.ok c, { customers := s.customers ++ [c], audits := audits, nextId := s.nextId + 1 })

/-- One call issued to the data store, for stating the ordering property
of the audited `Delete`. -/
inductive StoreOp where
  | selectCustomer (id : String)
  | insertAudit (e : AuditEntry)
  | deleteRow (id : String)
deriving DecidableEq, Repr

/-- Modelled from the spec: the audited `Delete(id)` of the Ledger Service,
whose implementation is not under src/.  Reads the full customer row
first; when the read fails the operation returns `false` without emitting
an audit entry or touching the store; otherwise it inserts the
`customer_deleted` audit entry (with the pre-deletion profile) before
issuing the row delete.  Returns the result, the new state, and the
ordered trace of store calls issued. -/
def ledgerDelete (s : LedgerState) (id : String) :
    Bool × LedgerState × List StoreOp :=
  match s.customers.find? (fun c => c.id == id) with
  | none => (false, s, [StoreOp.selectCustomer id])
  | some c =>
      let e : AuditEntry := ⟨ActionType.customer_deleted, c.id, c.name, none⟩
      (true,
       { customers := s.customers.filter (fun x => !(x.id == id))
         audits := s.audits ++ [e]
         nextId := s.nextId },
       [StoreOp.selectCustomer id, StoreOp.insertAudit e, StoreOp.deleteRow id])

/-- A sample customer row used by the concrete witnesses. -/
def alice : Customer :=
  { id := "1", name := "Alice", phone := "+60 12-345 6789"
    points := 950, points_redeemed := 0, tier := Tier.standard, created_at := 0 }

/-- A sample ledger state holding `alice`. -/
def sampleLedger : LedgerState := { customers := [alice], audits := [], nextId := 2 }

/-- An empty ledger state. -/
def emptyLedger : LedgerState := { customers := [], audits := [], nextId := 0 }

/-- A sample MockDB row (its optional tier field set, drifted or not). -/
def mockRow : MockCustomer :=
  { id := "1", name := "Alice", phone := "+60 12-345 6789"
    points := 950, points_redeemed := 100, tier := some Tier.standard, created_at := 0 }

/-- A consistent row that a generic update will drive inconsistent. -/
def eveRow : Customer :=
  { id := "7", name := "Eve", phone := "+60 17-777 7777"
    points := 0, points_redeemed := 0, tier := Tier.standard, created_at := 0 }

/-- `eveRow` after `updateCustomer` set `points := 5000` without `tier`. -/
def eveDrifted : Customer :=
  { id := "7", name := "Eve", phone := "+60 17-777 7777"
    points := 5000, points_redeemed := 0, tier := Tier.standard, created_at := 0 }

/-- `alice` after `updatePoints` with `amount = 100`. -/
def aliceAfter : Customer :=
  { id := "1", name := "Alice", phone := "+60 12-345 6789"
    points := 1050, points_redeemed := 0, tier := Tier.gold, created_at := 0 }

theorem orZero_eq (x : Int) : orZero x = x := by
  unfold orZero; split <;> simp_all

theorem MockDB_updatePoints_fst (s : List MockCustomer) (id : String) (amount : Int) :
    (MockDB_updatePoints s id amount).1 =
      (s.find? (fun c => c.id == id)).map (fun c => mockUpdateRow c amount) := by
  induction s with
  | nil => rfl
  | cons c rest ih =>
      by_cases h : c.id == id <;> simp [MockDB_updatePoints, List.find?, h, ih]

theorem mockUpdateRow_zero (c : MockCustomer) : mockUpdateRow c 0 = c := by
  cases c; simp [mockUpdateRow]

theorem MockDB_updatePoints_zero (ms : List MockCustomer) (id : String) :
    MockDB_updatePoints ms id 0 = (ms.find? (fun c => c.id == id), ms) := by
  induction ms with
  | nil => rfl
  | cons c rest ih =>
      by_cases h : c.id == id <;>
        simp [MockDB_updatePoints, List.find?, h, ih, mockUpdateRow_zero]

/-- C1: for every integer `p`, `calculateTier p = platinum` iff `p ≥ 5000`,
`= gold` iff `1000 ≤ p < 5000`, `= standard` iff `p < 1000`; in particular
every negative `p` yields `standard`. -/
theorem calculateTier_correct (p : Int) :
    (calculateTier p = Tier.platinum ↔ p ≥ 5000) ∧
    (calculateTier p = Tier.gold ↔ 1000 ≤ p ∧ p < 5000) ∧
    (calculateTier p = Tier.standard ↔ p < 1000) ∧
    (p < 0 → calculateTier p = Tier.standard) := by
  unfold calculateTier TIER_THRESHOLDS_GOLD TIER_THRESHOLDS_PLATINUM
  split_ifs with h1 h2 <;>
    refine ⟨?_, ?_, ?_, ?_⟩ <;> simp_all <;> omega

/-- Witness for C1 at the concrete negative input `-5`. -/
theorem calculateTier_correct_witness : calculateTier (-5) = Tier.standard :=
  (calculateTier_correct (-5)).2.2.2 (by decide)

/-- C9: the tier calculator is monotone for the order
standard < gold < platinum (and, being a pure Lean function of `p` alone,
it is total and deterministic by construction). -/
theorem calculateTier_monotone (p q : Int) (h : p ≤ q) :
    tierRank (calculateTier p) ≤ tierRank (calculateTier q) := by
  unfold calculateTier TIER_THRESHOLDS_GOLD TIER_THRESHOLDS_PLATINUM tierRank
  split_ifs <;> simp_all <;> omega

/-- Witness for C9 at the concrete inputs `950 ≤ 5000`. -/
theorem calculateTier_monotone_witness :
    tierRank (calculateTier 950) ≤ tierRank (calculateTier 5000) :=
  calculateTier_monotone 950 5000 (by decide)

/-- C2 counterexample: on the cited `MockDB.updatePoints`, a successful
adjustment of `+100` on a row at 950 points leaves the stored tier at
`standard`, while `TierOf(950 + 100) = gold` — `MockDB` never writes the
tier field, so the claim as stated fails on it. -/
theorem MockDB_updatePoints_tier_counterexample :
    MockDB_updatePoints [mockRow] "1" 100 =
      (some { mockRow with points := 1050 }, [{ mockRow with points := 1050 }]) ∧
    ({ mockRow with points := 1050 } : MockCustomer).tier ≠
      some (calculateTier (mockRow.points + 100)) := by
  refine ⟨?_, by decide⟩
  decide

/-- C2 (amended): after a successful `SupabaseDB.updatePoints`, the stored
row has `points = oldPoints + delta`, `tier = TierOf(oldPoints + delta)`,
and `points_redeemed = oldPointsRedeemed + |delta|` when `delta < 0`,
unchanged otherwise; `MockDB.updatePoints` updates `points` and
`points_redeemed` in the same way but leaves the tier field untouched. -/
theorem updatePoints_adjusts (s : List Customer) (id : String) (amount : Int)
    (c : Customer) (h : s.find? (fun x => x.id == id) = some c)
    (ms : List MockCustomer) (mc : MockCustomer)
    (hm : ms.find? (fun x => x.id == id) = some mc) :
    (updatePoints s id amount).1 = some (applyPointsUpdate c (pointsUpdateOf c amount)) ∧
    (applyPointsUpdate c (pointsUpdateOf c amount)).points = c.points + amount ∧
    (applyPointsUpdate c (pointsUpdateOf c amount)).tier = calculateTier (c.points + amount) ∧
    (applyPointsUpdate c (pointsUpdateOf c amount)).points_redeemed =
      (if amount < 0 then c.points_redeemed + |amount| else c.points_redeemed) ∧
    applyPointsUpdate c (pointsUpdateOf c amount) ∈ (updatePoints s id amount).2 ∧
    (MockDB_updatePoints ms id amount).1 = some (mockUpdateRow mc amount) ∧
    (mockUpdateRow mc amount).points = mc.points + amount ∧
    (mockUpdateRow mc amount).points_redeemed =
      (if amount < 0 then mc.points_redeemed + |amount| else mc.points_redeemed) ∧
    (mockUpdateRow mc amount).tier = mc.tier := by
  have hcid : (c.id == id) = true := by
    have := List.find?_some h
    simpa using this
  have hcmem : c ∈ s := List.mem_of_find?_eq_some h
  refine ⟨?_, ?_, ?_, ?_, ?_, ?_, ?_, ?_, ?_⟩
  · simp [updatePoints, h]
  · simp [applyPointsUpdate, pointsUpdateOf]
  · simp [applyPointsUpdate, pointsUpdateOf]
  · simp [applyPointsUpdate, pointsUpdateOf, orZero_eq]
  · simp only [updatePoints, h]
    have : applyPointsUpdate c (pointsUpdateOf c amount) =
        (fun x => if x.id == id then applyPointsUpdate x (pointsUpdateOf c amount) else x) c := by
      simp [hcid]
    rw [this]
    exact List.mem_map_of_mem _ hcmem
  · rw [MockDB_updatePoints_fst, hm]; rfl
  · simp [mockUpdateRow]
  · simp [mockUpdateRow]
  · simp [mockUpdateRow]

/-- Witness for C2 (amended) at a concrete one-row store and redemption
`delta = -50`. -/
theorem updatePoints_adjusts_witness :
    (updatePoints [alice] "1" (-50)).1 =
      some (applyPointsUpdate alice (pointsUpdateOf alice (-50))) ∧
    (MockDB_updatePoints [mockRow] "1" (-50)).1 = some (mockUpdateRow mockRow (-50)) := by
  have h := updatePoints_adjusts [alice] "1" (-50) alice (by decide) [mockRow] mockRow (by decide)
  exact ⟨h.1, h.2.2.2.2.2.1⟩

/-- C10 counterexample: a generic `updateCustomer` that sets
`points := 5000` without `tier` produces a stored row whose tier has
drifted; `updatePoints` with `delta = 0` on that row then re-writes the
tier to `platinum`, a value different from its previous one — so
`delta = 0` is not an identity on every existing record. -/
theorem updatePoints_zero_counterexample :
    (updateCustomer [eveRow] "7" { points := some 5000 }).2 = [eveDrifted] ∧
    (updatePoints [eveDrifted] "7" 0).1 = some { eveDrifted with tier := Tier.platinum } ∧
    Tier.platinum ≠ eveDrifted.tier := by
  refine ⟨by decide, by decide, by decide⟩

/-- C10 (amended): `updatePoints` with `delta = 0` on an existing customer
is accepted (no non-zero precondition); `SupabaseDB.updatePoints` leaves
`points` and `points_redeemed` unchanged and re-writes `tier` to
`TierOf(points)`, which equals the previous tier exactly when the stored
tier was consistent with `points`, so on consistent rows it is an
identity; `MockDB.updatePoints` leaves the row entirely unchanged. -/
theorem updatePoints_zero_delta (s : List Customer) (id : String) (c : Customer)
    (h : s.find? (fun x => x.id == id) = some c)
    (ms : List MockCustomer) (mc : MockCustomer)
    (hm : ms.find? (fun x => x.id == id) = some mc) :
    (updatePoints s id 0).1 = some { c with tier := calculateTier c.points } ∧
    (c.tier = calculateTier c.points → (updatePoints s id 0).1 = some c) ∧
    MockDB_updatePoints ms id 0 = (some mc, ms) := by
  have h1 : (updatePoints s id 0).1 = some { c with tier := calculateTier c.points } := by
    cases c with
    | mk cid cname cphone cpoints credeemed ctier ccreated =>
        simp [updatePoints, h, applyPointsUpdate, pointsUpdateOf, orZero_eq]
  refine ⟨h1, ?_, ?_⟩
  · intro ht
    rw [h1]
    cases c
    simp_all
  · rw [MockDB_updatePoints_zero, hm]

/-- Witness for C10 (amended): `delta = 0` on the consistent row `alice`
returns the row unchanged, and on the MockDB store it is an identity. -/
theorem updatePoints_zero_delta_witness :
    (updatePoints [alice] "1" 0).1 = some alice ∧
    MockDB_updatePoints [mockRow] "1" 0 = (some mockRow, [mockRow]) := by
  have h := updatePoints_zero_delta [alice] "1" alice (by decide) [mockRow] mockRow (by decide)
  exact ⟨h.2.1 (by decide), h.2.2⟩

/-- C3 counterexample: a successful generic update that sets
`points := 5000` but not `tier` leaves the stored tier at `standard`
while `TierOf(5000) = platinum` — `updateCustomer` never recomputes the
tier, so the invariant does not survive every mutation. -/
theorem updateCustomer_tier_drift_counterexample :
    (updateCustomer [eveRow] "7" { points := some 5000 }).1 = some eveDrifted ∧
    eveDrifted.tier ≠ calculateTier eveDrifted.points := by
  refine ⟨by decide, by decide⟩

/-- C3 (amended): after every successful create (`addCustomer`) and points
adjustment (`updatePoints`) the stored tier equals `TierOf` of the stored
points — the returned row and every row the mutation touched are
consistent; generic update (`updateCustomer`) writes its partial payload
verbatim and can leave the tier inconsistent with the points. -/
theorem tier_points_invariant :
    (∀ (s : List Customer) (n : Nat) (inp : NewCustomerInput),
        (addCustomer s n inp).1.tier = calculateTier (addCustomer s n inp).1.points ∧
        (addCustomer s n inp).2 = s ++ [(addCustomer s n inp).1]) ∧
    (∀ (s : List Customer) (id : String) (amount : Int) (c : Customer),
        (updatePoints s id amount).1 = some c → c.tier = calculateTier c.points) ∧
    (∀ (s : List Customer) (id : String) (amount : Int) (x : Customer),
        x ∈ (updatePoints s id amount).2 → x ∈ s ∨ x.tier = calculateTier x.points) := by
  refine ⟨?_, ?_, ?_⟩
  · intro s n inp
    exact ⟨rfl, rfl⟩
  · intro s id amount c h
    unfold updatePoints at h
    cases hf : s.find? (fun x => x.id == id) with
    | none => rw [hf] at h; cases h
    | some c0 =>
        rw [hf] at h
        simp only [Option.some.injEq] at h
        subst h
        simp [applyPointsUpdate, pointsUpdateOf]
  · intro s id amount x hx
    unfold updatePoints at hx
    cases hf : s.find? (fun c => c.id == id) with
    | none => rw [hf] at hx; exact Or.inl hx
    | some c0 =>
        rw [hf] at hx
        simp only at hx
        rcases List.mem_map.mp hx with ⟨y, hy, hxy⟩
        by_cases hid : (y.id == id) = true
        · right
          rw [if_pos hid] at hxy
          subst hxy
          simp [applyPointsUpdate, pointsUpdateOf]
        · left
          rw [if_neg hid] at hxy
          subst hxy
          exact hy

/-- Witness for C3 (amended) at concrete create and adjustment inputs. -/
theorem tier_points_invariant_witness :
    (addCustomer [] 5 ⟨" Bob ", " +60 11-222 3333 ", 150⟩).1.tier =
      calculateTier (addCustomer [] 5 ⟨" Bob ", " +60 11-222 3333 ", 150⟩).1.points ∧
    aliceAfter.tier = calculateTier aliceAfter.points :=
  ⟨(tier_points_invariant.1 [] 5 ⟨" Bob ", " +60 11-222 3333 ", 150⟩).1,
   tier_points_invariant.2.1 [alice] "1" 100 aliceAfter (by decide)⟩

/-- C4: the audited `Delete(id)` (modelled from the spec) issues, in order,
the row read, the insertion of exactly one `customer_deleted` audit entry
referencing the id of the then still-existing customer, and only then the
row delete; when the row cannot be read, it returns `false`, emits no
audit entry, and leaves the store unchanged. -/
theorem ledgerDelete_spec (s : LedgerState) (id : String) :
    (∀ c, s.customers.find? (fun x => x.id == id) = some c →
        c ∈ s.customers ∧
        ledgerDelete s id =
          (true,
           { customers := s.customers.filter (fun x => !(x.id == id))
             audits := s.audits ++ [⟨ActionType.customer_deleted, id, c.name, none⟩]
             nextId := s.nextId },
           [StoreOp.selectCustomer id,
            StoreOp.insertAudit ⟨ActionType.customer_deleted, id, c.name, none⟩,
            StoreOp.deleteRow id])) ∧
    (s.customers.find? (fun x => x.id == id) = none →
        ledgerDelete s id = (false, s, [StoreOp.selectCustomer id])) := by
  constructor
  · intro c h
    have hmem : c ∈ s.customers := List.mem_of_find?_eq_some h
    have hcid : c.id = id := by
      have := List.find?_some h
      simpa using this
    refine ⟨hmem, ?_⟩
    simp [ledgerDelete, h, hcid]
  · intro h
    simp [ledgerDelete, h]

/-- Witness for C4: deleting the one customer of `sampleLedger` produces
the select-audit-delete trace, and deleting an absent id changes
nothing. -/
theorem ledgerDelete_spec_witness :
    ledgerDelete sampleLedger "1" =
      (true,
       { customers := []
         audits := [⟨ActionType.customer_deleted, "1", "Alice", none⟩]
         nextId := 2 },
       [StoreOp.selectCustomer "1",
        StoreOp.insertAudit ⟨ActionType.customer_deleted, "1", "Alice", none⟩,
        StoreOp.deleteRow "1"]) ∧
    ledgerDelete sampleLedger "9" = (false, sampleLedger, [StoreOp.selectCustomer "9"]) := by
  constructor
  · have h := ((ledgerDelete_spec sampleLedger "1").1 alice (by decide)).2
    rw [h]; decide
  · exact (ledgerDelete_spec sampleLedger "9").2 (by decide)

/-- C5: the audited `Create` (modelled from the spec) with a phone that
already belongs to another existing customer fails with `DuplicatePhone`
and leaves the store — customer rows and audit log alike — unchanged. -/
theorem ledgerCreate_duplicate_phone (s : LedgerState) (name phone : String)
    (p : Int) (h : phoneExists s phone none = true) :
    ledgerCreate s name phone p = (Except.error LedgerError.DuplicatePhone, s) := by
  simp [ledgerCreate, h]

/-- Witness for C5: creating a second customer with the phone `alice`
already holds fails and leaves `sampleLedger` unchanged. -/
theorem ledgerCreate_duplicate_phone_witness :
    ledgerCreate sampleLedger "Bob" "+60 12-345 6789" 50 =
      (Except.error LedgerError.DuplicatePhone, sampleLedger) :=
  ledgerCreate_duplicate_phone sampleLedger "Bob" "+60 12-345 6789" 50 (by decide)

/-- C6: a successful audited `Create` (modelled from the spec) with
`initialPoints > 0` appends exactly two audit entries — one
`customer_created` and one `points_added` whose `points_change` equals
`initialPoints` — and with `initialPoints = 0` exactly one
(`customer_created` only). -/
theorem ledgerCreate_audit_entries (s : LedgerState) (name phone : String)
    (p : Int) (h : phoneExists s phone none = false) :
    (0 < p → (ledgerCreate s name phone p).2.audits =
        s.audits ++
          [⟨ActionType.customer_created, toString s.nextId, jsTrim name, none⟩,
           ⟨ActionType.points_added, toString s.nextId, jsTrim name, some p⟩]) ∧
    (p = 0 → (ledgerCreate s name phone p).2.audits =
        s.audits ++ [⟨ActionType.customer_created, toString s.nextId, jsTrim name, none⟩]) := by
  constructor
  · intro hp
    simp [ledgerCreate, h, hp]
  · intro hp
    subst hp
    simp [ledgerCreate, h]

/-- Witness for C6: `Create(Alice, phone, 150)` on an empty ledger yields
exactly the two entries, and `Create(Carol, phone, 0)` yields one. -/
theorem ledgerCreate_audit_entries_witness :
    (ledgerCreate emptyLedger "Alice" "+60 11-111 1111" 150).2.audits =
      [⟨ActionType.customer_created, "0", "Alice", none⟩,
       ⟨ActionType.points_added, "0", "Alice", some 150⟩] ∧
    (ledgerCreate emptyLedger "Carol" "+60 13-333 3333" 0).2.audits =
      [⟨ActionType.customer_created, "0", "Carol", none⟩] := by
  constructor
  · have h := (ledgerCreate_audit_entries emptyLedger "Alice" "+60 11-111 1111" 150
      (by decide)).1 (by decide)
    rw [h]; decide
  · have h := (ledgerCreate_audit_entries emptyLedger "Carol" "+60 13-333 3333" 0
      (by decide)).2 (by decide)
    rw [h]; decide

/-- C7: a failing store call makes `getCustomers` and `searchCustomers`
return the empty list (the error is swallowed), while the mutations
surface the failure to the caller as an explicit signal — `addCustomer`
rethrows the wrapped store error, `updateCustomer` and `updatePoints`
return `null`, and `deleteCustomer` returns `false`. -/
theorem reads_soft_fail_writes_signal :
    (∀ e : StoreErr, getCustomersRun (Except.error e) = []) ∧
    (∀ e : StoreErr, searchCustomersRun (Except.error e) = []) ∧
    (∀ e : StoreErr,
        addCustomerRun (Except.error e) = Except.error ("Database error: " ++ e.message)) ∧
    (∀ e : StoreErr, updateCustomerRun (Except.error e) = none) ∧
    (∀ (e : StoreErr) (amount : Int) (updResp : Except StoreErr Customer),
        (updatePointsRun (Except.error e) amount updResp).1 = none) ∧
    (∀ (c : Customer) (amount : Int) (e : StoreErr),
        (updatePointsRun (Except.ok (some c)) amount (Except.error e)).1 = none) ∧
    (∀ e : StoreErr, deleteCustomerRun (Except.error e) = false) := by
  refine ⟨fun e => rfl, fun e => rfl, fun e => rfl, fun e => rfl,
    fun e amount updResp => rfl, fun c amount e => rfl, fun e => rfl⟩

/-- C8: when the customer row cannot be read — because the store holds no
row with that id, or because the initial fetch fails — `updatePoints`
returns `null` without issuing any write to the store. -/
theorem updatePoints_unreadable (s : List Customer) (id : String) (amount : Int)
    (h : s.find? (fun c => c.id == id) = none) :
    updatePoints s id amount = (none, s) ∧
    (∀ (e : StoreErr) (updResp : Except StoreErr Customer),
        updatePointsRun (Except.error e) amount updResp = (none, []) ∧
        updatePointsRun (Except.ok none) amount updResp = (none, [])) := by
  refine ⟨?_, fun e updResp => ⟨rfl, rfl⟩⟩
  simp [updatePoints, h]

/-- Witness for C8 at an id absent from a concrete one-row store. -/
theorem updatePoints_unreadable_witness :
    updatePoints [alice] "99" 10 = (none, [alice]) :=
  (updatePoints_unreadable [alice] "99" 10 (by decide)).1
